import Mathlib

/-!
Shallow embedding of the ghslpy library (acquisition/mosaic pipeline,
vectorization, categorical transition engine and urban pattern classifier)
together with theorems settling the specification claims.

Conventions of the embedding:
* Python strings are Lean `String`s; the Python string primitives
  `str.replace`, `str.split`, `str.join` and `str.format` (restricted to the
  usages occurring in the source) are re-implemented below by structural
  recursion so that the kernel can evaluate them.
* Python numbers that can be non-integral (raster fill values, raster cell
  values) are rationals `ℚ`; exact arithmetic stands in for IEEE floats,
  which is faithful at every concrete input used here (all values involved
  are small integers, exactly representable).
* Fallible Python code is modelled in an error monad; each `raise` site of
  the source corresponds to one constructor of `GhslError`.  A function that
  also performs I/O is modelled in a writer/error monad `Tr` whose log
  records the externally visible events (fetch attempts, printed warnings).
* The external collaborators (urllib download, zip extraction, rasterio
  open/clip) are abstracted into a `Fetch` parameter returning the list of
  raster files (with their recorded fill values) contained in an archive.
-/

namespace Ghslpy

/-- Association-list lookup with decidable key equality; models Python
`dict.get` for the small constant dictionaries of `products.py`. -/
def lookupA {α β : Type} [DecidableEq α] : List (α × β) → α → Option β
  | [], _ => none
  | (k, v) :: rest, a => if k = a then some v else lookupA rest a

/-- One rewriting step list for `pyReplace`: fuel-indexed so that the kernel
can evaluate it.  With fuel at least the length of the subject it performs
the left-to-right, non-overlapping replacement of Python `str.replace`. -/
def replaceFuel (pat rep : List Char) : Nat → List Char → List Char
  | 0, s => s
  | _ + 1, [] => []
  | fuel + 1, c :: rest =>
    if pat ≠ [] ∧ pat.isPrefixOf (c :: rest) then
      rep ++ replaceFuel pat rep fuel ((c :: rest).drop pat.length)
    else
      c :: replaceFuel pat rep fuel rest

/-- Python `s.replace(pat, rep)`. -/
def pyReplace (s pat rep : String) : String :=
  ⟨replaceFuel pat.data rep.data s.data.length s.data⟩

/-- Python `s.split(sep)` for a one-character separator. -/
def splitOnCharL (sep : Char) : List Char → List (List Char)
  | [] => [[]]
  | c :: rest =>
    match splitOnCharL sep rest with
    | [] => [[c]]
    | g :: gs => if c = sep then [] :: g :: gs else (c :: g) :: gs

/-- Python `sep.join(groups)` for a one-character separator. -/
def joinWithChar (sep : Char) : List (List Char) → List Char
  | [] => []
  | [g] => g
  | g :: gs => g ++ sep :: joinWithChar sep gs

/-- Python `int(x)` on a float: truncation towards zero. -/
def pyInt (q : ℚ) : ℤ := if 0 ≤ q then ⌊q⌋ else ⌈q⌉

instance {ε α : Type} [DecidableEq ε] [DecidableEq α] :
    DecidableEq (Except ε α) := fun a b =>
  match a, b with
  | .ok x, .ok y =>
    if h : x = y then .isTrue (by rw [h]) else .isFalse (by simp [h])
  | .error x, .error y =>
    if h : x = y then .isTrue (by rw [h]) else .isFalse (by simp [h])
  | .ok _, .error _ => .isFalse (by simp)
  | .error _, .ok _ => .isFalse (by simp)

/-!  ## products.py  -/

/-- One entry of the `PRODUCTS` dictionary of `products.py`.  The
`url_pattern` dictionary is keyed by classification (`none` is the Python
key `None`); `class_values` and `domains` default to the empty table for
products that do not define them. -/
structure ProductInfo where
  description : String
  epochs : List ℤ
  resolutions : List String
  classifications : Option (List String)
  default_resolution : String
  default_classification : Option String
  normalized_name : String
  url_pattern : List (Option String × String)
  class_values : List (ℤ × String) := []
  domains : List (ℤ × String) := []
deriving DecidableEq

/-- Embeds `PRODUCTS["GHS-BUILT-S"]`. -/
def GHS_BUILT_S_info : ProductInfo where
  description := "Global Human Settlement Built-Up Surface"
  epochs := [1975, 1980, 1985, 1990, 1995, 2000, 2015, 2018, 2020, 2025, 2030]
  resolutions := ["100m", "1000m"]
  classifications := some ["RES+NRES", "NRES"]
  default_resolution := "100m"
  default_classification := some "RES+NRES"
  normalized_name := "GHS_BUILT_S"
  url_pattern :=
    [(some "RES+NRES", "\x7bproduct\x7d_E\x7bepoch\x7d"),
     (some "NRES", "\x7bproduct\x7d_NRES_E\x7bepoch\x7d")]

/-- Embeds `PRODUCTS["GHS-BUILT-H"]`. -/
def GHS_BUILT_H_info : ProductInfo where
  description := "Global Human Settlement Built-Up Height"
  epochs := [2018]
  resolutions := ["100m"]
  classifications := some ["AGBH", "ANBH"]
  default_resolution := "100m"
  default_classification := some "AGBH"
  normalized_name := "GHS_BUILT_H"
  url_pattern :=
    [(some "AGBH", "\x7bproduct\x7d_\x7bclassification\x7d_E\x7bepoch\x7d"),
     (some "ANBH", "\x7bproduct\x7d_\x7bclassification\x7d_E\x7bepoch\x7d")]

/-- Embeds `PRODUCTS["GHS-BUILT-V"]`. -/
def GHS_BUILT_V_info : ProductInfo where
  description := "Global Human Settlement Built-Up Volume"
  epochs := [1975, 1980, 1985, 1990, 1995, 2000, 2015, 2020, 2025, 2030]
  resolutions := ["100m", "1000m"]
  classifications := some ["RES+NRES", "NRES"]
  default_resolution := "100m"
  default_classification := some "RES+NRES"
  normalized_name := "GHS_BUILT_V"
  url_pattern :=
    [(some "RES+NRES", "\x7bproduct\x7d_E\x7bepoch\x7d"),
     (some "NRES", "\x7bproduct\x7d_NRES_E\x7bepoch\x7d")]

/-- Embeds `PRODUCTS["GHS-POP"]`. -/
def GHS_POP_info : ProductInfo where
  description := "Global Human Settlement Population"
  epochs := [1975, 1980, 1985, 1990, 1995, 2000, 2015, 2020, 2025, 2030]
  resolutions := ["100m", "1000m"]
  classifications := none
  default_resolution := "100m"
  default_classification := none
  normalized_name := "GHS_POP"
  url_pattern := [(none, "\x7bproduct\x7d_E\x7bepoch\x7d")]

/-- Embeds `PRODUCTS["GHS-SMOD"]`, including its class-code and domain tables. -/
def GHS_SMOD_info : ProductInfo where
  description := "Global Human Settlement Settlement Model"
  epochs := [1975, 1980, 1985, 1990, 1995, 2000, 2015, 2020, 2025, 2030]
  resolutions := ["1000m"]
  classifications := none
  default_resolution := "1000m"
  default_classification := none
  normalized_name := "GHS_SMOD"
  url_pattern := [(none, "\x7bproduct\x7d_E\x7bepoch\x7d")]
  class_values :=
    [(30, "Urban Centre grid cell"),
     (23, "Dense Urban Cluster grid cell"),
     (22, "Semi-dense Urban Cluster grid cell"),
     (21, "Suburban or per-urban grid cell"),
     (13, "Rural cluster grid cell"),
     (12, "Low Density Rural grid cell"),
     (11, "Very low density rural grid cell"),
     (10, "Water grid cell")]
  domains :=
    [(30, "Urban domain"),
     (23, "Urban domain"),
     (22, "Urban domain"),
     (21, "Urban domain"),
     (13, "Rural domain"),
     (12, "Rural domain"),
     (11, "Rural domain"),
     (10, "Rural domain")]

/-- Embeds `PRODUCTS["GHS-BUILT-C"]`. -/
def GHS_BUILT_C_info : ProductInfo where
  description := "Global Human Settlement Built-up Characteristics"
  epochs := [2018]
  resolutions := ["10m"]
  classifications := some ["MSZ", "FUN"]
  default_resolution := "10m"
  default_classification := some "MSZ"
  normalized_name := "GHS_BUILT_C"
  url_pattern :=
    [(some "MSZ", "\x7bproduct\x7d_\x7bclassification\x7d_E\x7bepoch\x7d"),
     (some "FUN", "\x7bproduct\x7d_\x7bclassification\x7d_E\x7bepoch\x7d")]
  class_values :=
    [(1, "MSZ, open spaces, low vegetation surfaces NDVI <= 0.3"),
     (2, "MSZ, open spaces, medium vegetation surfaces 0.3 < NDVI <= 0.5"),
     (3, "MSZ, open spaces, high vegetation surfaces NDVI > 0.5"),
     (4, "MSZ, open spaces, water surfaces LAND < 0.5"),
     (5, "MSZ, open spaces, road surfaces"),
     (11, "MSZ, built spaces, residential, building height <= 3m"),
     (12, "MSZ, built spaces, residential, 3m < building height <= 6m"),
     (13, "MSZ, built spaces, residential, 6m < building height <= 15m"),
     (14, "MSZ, built spaces, residential, 15m < building height <= 30m"),
     (15, "MSZ, built spaces, residential, building height > 30m"),
     (21, "MSZ, built spaces, non-residential, building height <= 3m"),
     (22, "MSZ, built spaces, non-residential, 3m < building height <= 6m"),
     (23, "MSZ, built spaces, non-residential, 6m < building height <= 15m"),
     (24, "MSZ, built spaces, non-residential, 15m < building height <= 30m"),
     (25, "MSZ, built spaces, non-residential, building height > 30m")]

/-- The `PRODUCTS` registry of `products.py`, in dictionary insertion
order. -/
def PRODUCTS : List (String × ProductInfo) :=
  [("GHS-BUILT-S", GHS_BUILT_S_info),
   ("GHS-BUILT-H", GHS_BUILT_H_info),
   ("GHS-BUILT-V", GHS_BUILT_V_info),
   ("GHS-POP", GHS_POP_info),
   ("GHS-SMOD", GHS_SMOD_info),
   ("GHS-BUILT-C", GHS_BUILT_C_info)]

/-- One constructor per distinct `raise` site (or Python runtime error)
reachable in the embedded code.  Error payloads mirror the data interpolated
into the Python error messages. -/
inductive GhslError where
  /-- Embeds `get_product_info`: unsupported product, listing available products. -/
  | unknownProduct (product : String) (available : List String)
  /-- Embeds `validate_product_options`: epoch not available, listing epochs. -/
  | invalidEpoch (product : String) (epoch : ℤ) (available : List ℤ)
  /-- Embeds `validate_product_options`: resolution not available. -/
  | invalidResolution (product resolution : String) (available : List String)
  /-- Embeds `validate_product_options`: classification not available. -/
  | invalidClassification (product classification : String)
      (available : List String)
  /-- Embeds `validate_product_options`: product does not support classifications. -/
  | unsupportedClassification (product : String)
  /-- Embeds `_download_tiles`: the region intersects no GHSL tiles. -/
  | noIntersectingTiles
  /-- Embeds `_download_tiles`: failed to download any tiles for the region. -/
  | noTilesDownloaded
  /-- Embeds `download`: `Failed to download data for epoch: {e}`. -/
  | epochDownloadFailed (epoch : ℤ)
  /-- Embeds `download`: failed for every requested epoch. -/
  | allEpochsFailed (epochs : List ℤ)
  /-- Python `TypeError`: `_download_and_process_zip` called without its
  required `region_gdf` argument. -/
  | missingRegionArgument
  /-- Python `AttributeError`: `None.format` when no URL pattern matches. -/
  | attributeError
  /-- Failure inside the external fetch stack (urlretrieve, unzip, rasterio
  open or clip); carries the exception text. -/
  | fetchFailed (message : String)
  /-- Embeds `_download_and_process_zip`: no TIF files in the downloaded zip. -/
  | noTifFiles (url : String)
  /-- Embeds `AssertionError`: `Fill values change between files`. -/
  | inconsistentNoDataValue
deriving DecidableEq

/-- Embeds `get_product_info` (products.py lines 123-140). -/
def get_product_info (product : String) : Except GhslError ProductInfo :=
  match lookupA PRODUCTS product with
  | some info => .ok info
  | none => .error (.unknownProduct product (PRODUCTS.map Prod.fst))

/-- Embeds `validate_product_options` (products.py lines 142-185). -/
def validate_product_options (product : String) (epoch : ℤ)
    (resolution classification : Option String) :
    Except GhslError (String × ℤ × String × Option String) :=
  match get_product_info product with
  | .error e => .error e
  | .ok info =>
    if epoch ∉ info.epochs then
      .error (.invalidEpoch product epoch info.epochs)
    else
      match resolution with
      | none => validateClassification product info epoch info.default_resolution
          classification
      | some r =>
        if r ∈ info.resolutions then
          validateClassification product info epoch r classification
        else
          .error (.invalidResolution product r info.resolutions)
where
  /-- The classification branch of `validate_product_options`
  (products.py lines 172-185). -/
  validateClassification (product : String) (info : ProductInfo) (epoch : ℤ)
      (resolution : String) (classification : Option String) :
      Except GhslError (String × ℤ × String × Option String) :=
    match info.classifications with
    | some valid =>
      match classification with
      | none => .ok (info.normalized_name, epoch, resolution,
          info.default_classification)
      | some c =>
        if c ∈ valid then .ok (info.normalized_name, epoch, resolution, some c)
        else .error (.invalidClassification product c valid)
    | none =>
      match classification with
      | some _ => .error (.unsupportedClassification product)
      | none => .ok (info.normalized_name, epoch, resolution, none)

/-!  ## download.py

The xarray/rioxarray data is abstracted to the structure the claims speak
about: a `Dataset` records its variable names and the values of its `time`
coordinate (absent time dimension = empty list).  Spatial contents, affine
transforms and CRS are irrelevant to every claim and are not modelled; the
reprojection `region_gdf.to_crs(...)` is therefore the identity on the
abstract region.  Regions and tile boundaries are finite sets of integer
grid cells, with geometric intersection as set intersection. -/

/-- Abstraction of an `xarray.Dataset`: variable names plus the values of
the `time` coordinate (in order, duplicates preserved).  A dataset with no
time dimension has `time = []`. -/
structure Dataset where
  vars : List String
  time : List String
deriving DecidableEq

/-- One GeoTIFF inside a downloaded archive: its file base name and the
`_FillValue` recorded by rasterio.  Fill values are modelled as integers:
every GHSL no-data sentinel is integral, and `np.mean` equality below is
then exact. -/
structure TifFile where
  name : String
  fillValue : ℤ
deriving DecidableEq

/-- The external fetch stack (`urllib.request.urlretrieve`, zip extraction,
`rioxarray.open_rasterio` and `rio.clip`): given a URL it either returns
the TIF files found in the archive or fails with an exception message. -/
def Fetch : Type := String → Except String (List TifFile)

/-- Abstract geometry: a region (or tile boundary) as a finite set of
integer grid cells. -/
abbrev Region : Type := Finset (ℤ × ℤ)

/-- One row of `assets/ghsl_tiles.geojson`: a tile id and its boundary. -/
structure Tile where
  tile_id : String
  geom : Region
deriving DecidableEq

/-- Externally visible events of a `download` run, in order. -/
inductive Event where
  /-- Embeds `print(f"Downloading {url}...")` immediately followed by
  `urllib.request.urlretrieve(url, ...)`. -/
  | fetchAttempt (url : String)
  /-- Embeds `print(f"Warning: Failed to download tile {tile_id}: {e}")`. -/
  | warning (tileId : String) (err : GhslError)
deriving DecidableEq

/-- Writer/error monad for the download pipeline: an ordered event log plus
either a value or the raised error.  Events logged before a raise are kept
(they happened). -/
structure Tr (α : Type) where
  log : List Event
  result : Except GhslError α

instance {α : Type} [DecidableEq α] : DecidableEq (Tr α) := fun a b =>
  match a, b with
  | ⟨l₁, r₁⟩, ⟨l₂, r₂⟩ =>
    if h : l₁ = l₂ ∧ r₁ = r₂ then .isTrue (by rw [h.1, h.2])
    else .isFalse (by intro hc; cases hc; exact h ⟨rfl, rfl⟩)

/-- Sequencing in `Tr`: on error the remaining computation is skipped but
the log so far is kept. -/
def Tr.bind {α β : Type} (t : Tr α) (f : α → Tr β) : Tr β :=
  match t.result with
  | .error e => ⟨t.log, .error e⟩
  | .ok a =>
    let u := f a
    ⟨t.log ++ u.log, u.result⟩

/-- A pure value in `Tr`. -/
def Tr.pure {α : Type} (a : α) : Tr α := ⟨[], .ok a⟩

/-- A `raise` in `Tr`. -/
def Tr.throw {α : Type} (e : GhslError) : Tr α := ⟨[], .error e⟩

/-- Embeds `BASE_URL` (download.py line 13). -/
def BASE_URL : String := "https://jeodpp.jrc.ec.europa.eu/ftp/jrc-opendata/GHSL"

/-- Embeds `url_pattern.get(classification, url_pattern.get(None))`
(download.py lines 158-160 and 200-202). -/
def urlPatternGet (info : ProductInfo) (classification : Option String) :
    Option String :=
  match lookupA info.url_pattern classification with
  | some p => some p
  | none => lookupA info.url_pattern none

/-- Embeds `url_pattern.format(product=..., epoch=..., classification=...)`
restricted to the placeholders occurring in `PRODUCTS` patterns.  A `None`
classification renders as Python `str(None)`, which never happens on the
patterns that mention it. -/
def pyFormat (pattern product : String) (epoch : ℤ)
    (classification : Option String) : String :=
  pyReplace
    (pyReplace (pyReplace pattern "\x7bproduct\x7d" product)
      "\x7bepoch\x7d" (toString epoch))
    "\x7bclassification\x7d" (classification.getD "None")

/-- Variable name derived from a TIF file name (download.py lines 305-306):
`"_".join(basename.split(".")[0].split("_")[:2])`. -/
def varNameOf (name : String) : String :=
  ⟨joinWithChar '_'
    ((splitOnCharL '_' ((splitOnCharL '.' name.data).headD [])).take 2)⟩

/-- A clipped single-variable dataset loaded from one TIF file. -/
def tifToDataset (t : TifFile) : Dataset := ⟨[varNameOf t.name], []⟩

/-- Embeds `xr.merge`: variables are united (first occurrence kept); the merged
time coordinate is that of the first dataset (all merge sites of the source
merge datasets that share one time coordinate, or none). -/
def xrMergeList (l : List Dataset) : Dataset :=
  ⟨((l.map Dataset.vars).flatten).dedup, (l.headD ⟨[], []⟩).time⟩

/-- Embeds `xr.concat(all_datasets, dim="time")`: time coordinates are
concatenated in order, duplicates preserved. -/
def xrConcatTime (l : List Dataset) : Dataset :=
  ⟨((l.map Dataset.vars).flatten).dedup, (l.map Dataset.time).flatten⟩

/-- Embeds `ds.expand_dims({"time": [t]})` on a dataset without time dimension. -/
def expandDimsTime (ds : Dataset) (t : String) : Dataset := ⟨ds.vars, [t]⟩

/-- The Python assertion `np.mean(fillvalues) == fillvalues[0]`
(download.py lines 318-320), stated cross-multiplied so it stays in ℤ:
for the integral fill values modelled here, `sum l / length l = head l`
holds exactly iff `sum l = head l * length l`. -/
def fillValuesMeanEqFirst (l : List ℤ) : Prop :=
  l.sum = l.headD 0 * l.length

instance (l : List ℤ) : Decidable (fillValuesMeanEqFirst l) :=
  inferInstanceAs (Decidable (_ = _))

/-- Embeds `_download_and_process_zip(url, region_gdf)` (download.py lines
267-327).  The Python parameter `region_gdf` is required and has no
default; the `none` branch models the `TypeError` Python raises when the
function is called without it (before any of its body runs).  The body:
fetch and extract the archive, fail if it contains no TIF files, load each
TIF clipped to the region, record each `_FillValue`, assert the fill-value
mean equals the first fill value, then merge the per-TIF datasets. -/
def downloadAndProcessZip (fetch : Fetch) (url : String)
    (region_gdf : Option Region) : Tr Dataset :=
  match region_gdf with
  | none => ⟨[], .error .missingRegionArgument⟩
  | some _ =>
    ⟨[.fetchAttempt url],
      match fetch url with
      | .error msg => .error (.fetchFailed msg)
      | .ok tifs =>
        if tifs.isEmpty then .error (.noTifFiles url)
        else
          let fillvalues := tifs.map TifFile.fillValue
          if fillValuesMeanEqFirst fillvalues then
            .ok (xrMergeList (tifs.map tifToDataset))
          else .error .inconsistentNoDataValue⟩

/-- URL of the global archive (download.py lines 167-176). -/
def globalUrl (base product projection resolution version : String) : String :=
  String.intercalate "/"
    [BASE_URL,
     product ++ "_GLOBE_R2023A",
     base ++ "_GLOBE_R2023A_" ++ projection ++ "_" ++ resolution,
     version,
     base ++ "_GLOBE_R2023A_" ++ projection ++ "_" ++ resolution ++ "_"
       ++ pyReplace version "-" "_" ++ ".zip"]

/-- URL of one tile archive (download.py lines 233-243). -/
def tileUrl (base product projection resolution version tileId : String) :
    String :=
  String.intercalate "/"
    [BASE_URL,
     product ++ "_GLOBE_R2023A",
     base ++ "_GLOBE_R2023A_" ++ projection ++ "_" ++ resolution,
     version,
     "tiles",
     base ++ "_GLOBE_R2023A_" ++ projection ++ "_" ++ resolution ++ "_"
       ++ pyReplace version "-" "_" ++ "_" ++ tileId ++ ".zip"]

/-- Embeds `_download_global` (download.py lines 146-179).  Note the final call
`_download_and_process_zip(url)`: the required `region_gdf` argument is not
supplied. -/
def downloadGlobal (fetch : Fetch) (product : String) (epoch : ℤ)
    (projection resolution version : String)
    (classification : Option String) : Tr Dataset :=
  match get_product_info (pyReplace product "_" "-") with
  | .error e => ⟨[], .error e⟩
  | .ok info =>
    match urlPatternGet info classification with
    | none => ⟨[], .error .attributeError⟩
    | some pattern =>
      let base := pyFormat pattern product epoch classification
      downloadAndProcessZip fetch
        (globalUrl base product projection resolution version) none

/-- The per-tile `try/except` loop of `_download_tiles` (download.py lines
229-253): each tile is fetched and processed; a failure is logged as a
warning and the tile skipped, and processing continues. -/
def tileLoop (fetch : Fetch) (mkUrl : String → String) (region : Region) :
    List Tile → List Event × List Dataset
  | [] => ([], [])
  | t :: ts =>
    let attempt := downloadAndProcessZip fetch (mkUrl t.tile_id) (some region)
    let rest := tileLoop fetch mkUrl region ts
    match attempt.result with
    | .ok ds => (attempt.log ++ rest.1, ds :: rest.2)
    | .error e => (attempt.log ++ [.warning t.tile_id e] ++ rest.1, rest.2)

/-- Embeds `tiles_gdf[tiles_gdf.intersects(region_gdf.union_all())]` (download.py
lines 219-221): the tiles whose boundary meets the region. -/
def intersectingTiles (tiles : List Tile) (region : Region) : List Tile :=
  tiles.filter (fun t => (t.geom ∩ region).Nonempty)

/-- The tile-set part of `_download_tiles` (download.py lines 209-264),
after the URL base name has been resolved: select intersecting tiles, fail
on an empty selection, run the per-tile loop, fail if no tile succeeded,
otherwise merge the surviving tiles. -/
def downloadTilesCore (fetch : Fetch) (tiles : List Tile)
    (base product projection resolution version : String)
    (region : Region) : Tr Dataset :=
  if (intersectingTiles tiles region).isEmpty then
    ⟨[], .error .noIntersectingTiles⟩
  else
    let r := tileLoop fetch
      (fun tid => tileUrl base product projection resolution version tid)
      region (intersectingTiles tiles region)
    if r.2.isEmpty then ⟨r.1, .error .noTilesDownloaded⟩
    else ⟨r.1, .ok (xrMergeList r.2)⟩

/-- Embeds `_download_tiles` (download.py lines 182-264).  The reprojection of the
region into the raster CRS is the identity on the abstract region. -/
def downloadTiles (fetch : Fetch) (tiles : List Tile) (product : String)
    (epoch : ℤ) (projection resolution version : String) (region : Region)
    (classification : Option String) : Tr Dataset :=
  match get_product_info (pyReplace product "_" "-") with
  | .error e => ⟨[], .error e⟩
  | .ok info =>
    match urlPatternGet info classification with
    | none => ⟨[], .error .attributeError⟩
    | some pattern =>
      downloadTilesCore fetch tiles
        (pyFormat pattern product epoch classification) product projection
        resolution version region

/-- Embeds `download_single` (download.py lines 90-143). -/
def download_single (fetch : Fetch) (tiles : List Tile) (product : String)
    (epoch : ℤ) (resolution classification : Option String)
    (region : Option Region) : Tr Dataset :=
  match validate_product_options product epoch resolution classification with
  | .error e => ⟨[], .error e⟩
  | .ok (productNorm, epoch, resolution, classification) =>
    let projection := "54009"
    let resolutionValue := pyReplace resolution "m" ""
    let version := "V1-0"
    match region with
    | none =>
      downloadGlobal fetch productNorm epoch projection resolutionValue
        version classification
    | some r =>
      downloadTiles fetch tiles productNorm epoch projection resolutionValue
        version r classification

/-- Python `f"{e}-01-01"` (download.py lines 48 and 76). -/
def timeCoordOf (epoch : ℤ) : String := s!"{epoch}-01-01"

/-- The inner `for product in products` loop of `download` (lines 42-50 and
71-78): each product is downloaded for the epoch and the time coordinate is
attached via `expand_dims`. -/
def downloadProductsFor (fetch : Fetch) (tiles : List Tile) (epoch : ℤ)
    (resolution classification : Option String) (region : Option Region) :
    List String → Tr (List Dataset)
  | [] => ⟨[], .ok []⟩
  | p :: ps =>
    Tr.bind (download_single fetch tiles p epoch resolution classification
        region) fun ds =>
      Tr.bind (downloadProductsFor fetch tiles epoch resolution
          classification region ps) fun rest =>
        ⟨[], .ok (expandDimsTime ds (timeCoordOf epoch) :: rest)⟩

/-- The outer `for e in epoch` loop of `download` (lines 41-59): per epoch,
download all products, fail if the per-epoch list is empty, otherwise merge
the products of the epoch into one dataset. -/
def downloadEpochsLoop (fetch : Fetch) (tiles : List Tile)
    (products : List String) (resolution classification : Option String)
    (region : Option Region) : List ℤ → Tr (List Dataset)
  | [] => ⟨[], .ok []⟩
  | e :: es =>
    Tr.bind (downloadProductsFor fetch tiles e resolution classification
        region products) fun epochDatasets =>
      if epochDatasets.isEmpty then Tr.throw (.epochDownloadFailed e)
      else
        Tr.bind (downloadEpochsLoop fetch tiles products resolution
            classification region es) fun rest =>
          ⟨[], .ok (xrMergeList epochDatasets :: rest)⟩

/-- The `products` argument of `download`: a single name or a list. -/
inductive ProductsArg where
  | str (s : String)
  | list (l : List String)

/-- The `epoch` argument of `download`: a single year or a list. -/
inductive EpochArg where
  | int (e : ℤ)
  | list (l : List ℤ)

/-- Embeds `if isinstance(products, str): products = [products]` (lines 35-36). -/
def productListOf : ProductsArg → List String
  | .str s => [s]
  | .list l => l

/-- Embeds `download` (download.py lines 17-87). -/
def download (fetch : Fetch) (tiles : List Tile) (products : ProductsArg)
    (epoch : EpochArg) (resolution classification : Option String)
    (region : Option Region) : Tr Dataset :=
  match epoch with
  | .list es =>
    Tr.bind (downloadEpochsLoop fetch tiles (productListOf products)
        resolution classification region es) fun allDatasets =>
      if allDatasets.isEmpty then Tr.throw (.allEpochsFailed es)
      else Tr.pure (xrConcatTime allDatasets)
  | .int e =>
    Tr.bind (downloadProductsFor fetch tiles e resolution classification
        region (productListOf products)) fun productDatasets =>
      if productDatasets.isEmpty then Tr.throw (.epochDownloadFailed e)
      else Tr.pure (xrMergeList productDatasets)

/-!  ## vectors/smod_functions.py

Polygon geometry is abstracted to finite sets of integer grid cells, on
which shapely's `union`, `difference` and emptiness are exact set
operations.  A GeoDataFrame row carries the (already classified) `GHS_SMOD`
label, the parsed `date` as a `(year, month, day)` triple (the embedding of
`pd.to_datetime(...);.dt.year` is the first component), and its geometry. -/

/-- One row of the vectorized GHS-SMOD GeoDataFrame handed to
`smod_year_of_transition`. -/
structure SmodRow where
  GHS_SMOD : String
  date : ℤ × ℕ × ℕ
  geometry : Finset (ℤ × ℤ)

/-- The hard-coded target category of `smod_year_of_transition` (line 8). -/
def urbanCentreLabel : String := "Urban Centre grid cell"

/-- Embeds `gdf[gdf.GHS_SMOD == 'Urban Centre grid cell']` (line 8). -/
def smodFiltered (rows : List SmodRow) : List SmodRow :=
  rows.filter (fun r => decide (r.GHS_SMOD = urbanCentreLabel))

/-- Embeds `pd.to_datetime(gdf['date']).dt.year` (line 9). -/
def yearOf (r : SmodRow) : ℤ := r.date.1

/-- The distinct years of the filtered rows, ascending — the index of
`gdf.dissolve(by='year').sort_index()` (lines 10-11). -/
def transitionYears (rows : List SmodRow) : List ℤ :=
  (((smodFiltered rows).map yearOf).dedup).insertionSort (· ≤ ·)

/-- The dissolved (unioned) geometry of one year group (line 10). -/
def dissolveYear (rows : List SmodRow) (y : ℤ) : Finset (ℤ × ℤ) :=
  (((smodFiltered rows).filter (fun r => decide (yearOf r = y))).map
    SmodRow.geometry).foldr (· ∪ ·) ∅

/-- The rows of `yearly = gdf.dissolve(by='year').sort_index()`: one
`(year, dissolved geometry)` pair per distinct year, ascending. -/
def yearlyDissolved (rows : List SmodRow) : List (ℤ × Finset (ℤ × ℤ)) :=
  (transitionYears rows).map (fun y => (y, dissolveYear rows y))

/-- The `for year, row in yearly.iterrows()` loop of
`smod_year_of_transition` (lines 13-25), carried out on the sorted yearly
rows with the running `past_union` accumulator (`none` is Python `None`). -/
def transLoop :
    List (ℤ × Finset (ℤ × ℤ)) → Option (Finset (ℤ × ℤ)) →
      List (ℤ × Finset (ℤ × ℤ))
  | [], _ => []
  | (y, g) :: rest, pastUnion =>
    let newGeom :=
      match pastUnion with
      | some pu => g \ pu
      | none => g
    (y, newGeom) ::
      transLoop rest
        (some (match pastUnion with | none => g | some pu => pu ∪ g))

/-- Embeds `smod_year_of_transition` (smod_functions.py lines 4-28). -/
def smod_year_of_transition (rows : List SmodRow) :
    List (ℤ × Finset (ℤ × ℤ)) :=
  transLoop (yearlyDissolved rows) none

/-- Union of a list of geometries. -/
def unionOfList (l : List (Finset (ℤ × ℤ))) : Finset (ℤ × ℤ) :=
  l.foldr (· ∪ ·) ∅

/-- The cumulative union of the dissolved geometries of all years strictly
before position `i` of the sorted yearly rows. -/
def cumulativeUnion (yearly : List (ℤ × Finset (ℤ × ℤ))) (i : ℕ) :
    Finset (ℤ × ℤ) :=
  unionOfList ((yearly.take i).map Prod.snd)

/-!  ## vectors/vectorize.py : `_apply_smod_classification`  -/

/-- A row of the vectorized GeoDataFrame before classification: the raw
numeric `GHS_SMOD` raster value (a float; `none` models NaN, which
`na_action='ignore'` skips). -/
structure VectorizedRow where
  GHS_SMOD : Option ℚ

/-- The same row after `_apply_smod_classification`. -/
structure ClassifiedRow where
  class_value : Option ℚ
  GHS_SMOD : Option String
  domain : Option String
deriving DecidableEq

/-- Embeds `_apply_smod_classification` (vectors/vectorize.py lines 62-82):
copy the raw code into `class_value`, replace `GHS_SMOD` by the mapped
class label (falling back to `Unknown class {int(x)}`), and attach the
`domain` mapped from the same code (falling back to `Unknown domain`). -/
def apply_smod_classification (rows : List VectorizedRow) :
    List ClassifiedRow :=
  let smod_info :=
    match get_product_info "GHS-SMOD" with
    | .ok i => i
    | .error _ => GHS_SMOD_info
  rows.map fun r =>
    { class_value := r.GHS_SMOD
      GHS_SMOD := r.GHS_SMOD.map fun x =>
        (lookupA smod_info.class_values (pyInt x)).getD
          s!"Unknown class {pyInt x}"
      domain := r.GHS_SMOD.map fun x =>
        (lookupA smod_info.domains (pyInt x)).getD "Unknown domain" }

/-!  ## metrics/pixelwise.py : `monocentric_polycentric_pattern`

The classifier works on the H×W density grid
(`population_density(pop_data)`, the scoped-out elementwise transform
`pop / pixel_area` applied upstream at lines 399-400).  `skimage.measure.label`
with its default full connectivity is modelled as the partition of the
above-threshold mask into 8-connected components, computed here by
fixed-point iteration of a neighbourhood-growing step;
`ndimage.distance_transform_edt` comparisons `distance < search_radius` are
carried out on squared Euclidean distances (`d < r ↔ d² < r²` for the
nonnegative integer radii used), which keeps everything in ℕ and is exact
where the float computation is. -/

/-- A cell of an H×W grid. -/
abbrev Cell (H W : ℕ) := Fin H × Fin W

/-- Squared Euclidean distance between two cells. -/
def sqdist {H W : ℕ} (p q : Cell H W) : ℕ :=
  (((p.1 : ℤ) - (q.1 : ℤ)).natAbs) ^ 2 + (((p.2 : ℤ) - (q.2 : ℤ)).natAbs) ^ 2

/-- Eight-neighbourhood (8-connected) adjacency (skimage full connectivity for 2-D). -/
def adj8 {H W : ℕ} (p q : Cell H W) : Prop :=
  p ≠ q ∧ ((p.1 : ℤ) - (q.1 : ℤ)).natAbs ≤ 1 ∧
    ((p.2 : ℤ) - (q.2 : ℤ)).natAbs ≤ 1

instance {H W : ℕ} (p q : Cell H W) : Decidable (adj8 p q) := by
  unfold adj8; infer_instance

/-- Embeds `urban_centers = density >= density_threshold` (line 403): the binary
mask of cells at or above the density threshold. -/
def urban_centers {H W : ℕ} (density : Cell H W → ℚ)
    (density_threshold : ℚ) : Finset (Cell H W) :=
  Finset.univ.filter (fun c => density_threshold ≤ density c)

/-- One step of component growth inside the mask: keep every mask cell that
is already collected or 8-adjacent to a collected cell. -/
def growStep {H W : ℕ} (mask s : Finset (Cell H W)) : Finset (Cell H W) :=
  mask.filter (fun q => q ∈ s ∨ ∃ p ∈ s, adj8 p q)

/-- Iterated component growth from a seed cell. -/
def growIter {H W : ℕ} (mask : Finset (Cell H W)) (a : Cell H W) :
    ℕ → Finset (Cell H W)
  | 0 => mask.filter (fun q => q = a)
  | n + 1 => growStep mask (growIter mask a n)

/-- The 8-connected component of the mask containing `a` (empty if `a` is
not a mask cell): the fixed point of `growStep`, reached after at most
`H * W` steps. -/
def componentOf {H W : ℕ} (mask : Finset (Cell H W)) (a : Cell H W) :
    Finset (Cell H W) :=
  growIter mask a (H * W)

/-- The labelled components (`measure.label`, lines 406-407): one entry per
distinct connected component of the mask. -/
def componentsOf {H W : ℕ} (mask : Finset (Cell H W)) :
    Finset (Finset (Cell H W)) :=
  mask.image (componentOf mask)

/-- Embeds `distance_maps[i][c] < search_radius`: the component's Euclidean
distance transform at `c` is strictly below the search radius, stated on
squared distances. -/
def compNear {H W : ℕ} (comp : Finset (Cell H W)) (c : Cell H W)
    (search_radius : ℕ) : Prop :=
  ∃ q ∈ comp, sqdist q c < search_radius * search_radius

instance {H W : ℕ} (comp : Finset (Cell H W)) (c : Cell H W) (r : ℕ) :
    Decidable (compNear comp c r) := by
  unfold compNear; infer_instance

/-- Embeds `monocentric_polycentric_pattern` (pixelwise.py lines 377-459) at one
cell: `0` if no components were detected (lines 415-421), else `2` if more
than one component is within the search radius (`centers_in_radius > 1`,
lines 434, 441-443), else `1` if the minimal distance over components is
below the radius (`min_distance < search_radius`, lines 426, 438-440),
else `0`. -/
def monocentric_polycentric_pattern {H W : ℕ} (density : Cell H W → ℚ)
    (density_threshold : ℚ) (search_radius : ℕ) (c : Cell H W) : ℕ :=
  let mask := urban_centers density density_threshold
  let comps := componentsOf mask
  if comps = ∅ then 0
  else if 1 < (comps.filter (fun comp => compNear comp c search_radius)).card
    then 2
  else if ∃ comp ∈ comps, compNear comp c search_radius then 1
  else 0

/-!  ## Concrete fixtures used by witnesses and counterexamples  -/

/-- A one-cell region of interest. -/
def cRegion : Region := {((0 : ℤ), (0 : ℤ))}

/-- A tile whose boundary meets `cRegion`. -/
def cTile : Tile := ⟨"R3_C11", {((0 : ℤ), (0 : ℤ))}⟩

/-- A fetch stack that always returns one GHS-POP raster with the usual
GHSL sentinel `-200`. -/
def cFetch : Fetch := fun _ => .ok [⟨"GHS_POP_E2020_GLOBE_R2023A", -200⟩]

/-- A second tile, also meeting `cRegionAB`. -/
def cTileB : Tile := ⟨"R1_C2", {((1 : ℤ), (0 : ℤ))}⟩

/-- A first tile for the two-tile fixture. -/
def cTileA : Tile := ⟨"R1_C1", {((0 : ℤ), (0 : ℤ))}⟩

/-- A region meeting both `cTileA` and `cTileB`. -/
def cRegionAB : Region := {((0 : ℤ), (0 : ℤ)), ((1 : ℤ), (0 : ℤ))}

/-- A fetch stack failing exactly on tile `R1_C1`'s archive. -/
def cFetchFailA : Fetch := fun url =>
  if ("_R1_C1.zip".data).isSuffixOf url.data then .error "HTTP Error 404"
  else .ok [⟨"GHS_POP_E2020_GLOBE_R2023A", -200⟩]

/-- Urban-centre row of year 2000 with geometry `{(0,0), (1,1)}`. -/
def cRowY2000 : SmodRow :=
  ⟨"Urban Centre grid cell", (2000, 1, 1),
    {((0 : ℤ), (0 : ℤ)), ((1 : ℤ), (1 : ℤ))}⟩

/-- Urban-centre row of year 2010 whose geometry `{(0,0)}` is a strict
subset of the year-2000 geometry (shrinkage). -/
def cRowY2010 : SmodRow :=
  ⟨"Urban Centre grid cell", (2010, 1, 1), {((0 : ℤ), (0 : ℤ))}⟩

/-- The shrinkage fixture for the transition engine. -/
def cRowsShrink : List SmodRow := [cRowY2000, cRowY2010]

/-- A vectorized row carrying the unmapped SMOD code 99. -/
def cRows99 : List VectorizedRow := [⟨some 99⟩]

/-- The processing of one tile inside the `_download_tiles` loop: fetch the
tile archive and clip it to the region. -/
def tileOutcome (fetch : Fetch) (base product projection resolution
    version : String) (region : Region) (t : Tile) : Tr Dataset :=
  downloadAndProcessZip fetch
    (tileUrl base product projection resolution version t.tile_id)
    (some region)

/-- The log contribution of one tile: its fetch attempt plus, on failure,
the printed warning. -/
def tileLogOf (fetch : Fetch) (base product projection resolution
    version : String) (region : Region) (t : Tile) : List Event :=
  let a := tileOutcome fetch base product projection resolution version
    region t
  a.log ++
    (match a.result with
     | .ok _ => []
     | .error e => [Event.warning t.tile_id e])

/-- Embeds `past_union` as a geometry: Python `None` is the empty accumulator. -/
def pastUnionD : Option (Finset (ℤ × ℤ)) → Finset (ℤ × ℤ)
  | none => ∅
  | some pu => pu

/-- The step relation of 8-connectivity restricted to the mask: two mask
cells that are 8-adjacent.  Its reflexive-transitive closure on mask cells
is "same connected component". -/
def stepRel {H W : ℕ} (mask : Finset (Cell H W)) (p q : Cell H W) : Prop :=
  p ∈ mask ∧ q ∈ mask ∧ adj8 p q

/-- The dataset produced by the three-epoch witness request. -/
def cDs3 : Dataset :=
  ⟨["GHS_POP"], ["2000-01-01", "2015-01-01", "2020-01-01"]⟩

/-- The dataset produced by the single-epoch witness request. -/
def cDs1 : Dataset := ⟨["GHS_POP"], ["2020-01-01"]⟩

/-- Three rasters inside one archive whose recorded fill values 0, -1, 1
are not all identical but average to the first one. -/
def cTifsUnequal : List TifFile :=
  [⟨"GHS_SMOD_E2020_A", 0⟩, ⟨"GHS_SMOD_E2020_B", -1⟩, ⟨"GHS_SMOD_E2020_C", 1⟩]

/-- A fetch stack returning `cTifsUnequal`. -/
def cFetchUnequal : Fetch := fun _ => .ok cTifsUnequal

/-!  ## Supporting lemmas  -/

theorem Tr.bind_ok_iff {α β : Type} {t : Tr α} {f : α → Tr β} {b : β} :
    (Tr.bind t f).result = .ok b ↔
      ∃ a, t.result = .ok a ∧ (f a).result = .ok b := by
  obtain ⟨log, r⟩ := t
  cases r <;> simp [Tr.bind]

theorem flatten_map_singleton {α β : Type} (f : α → β) (l : List α) :
    (l.map (fun x => [f x])).flatten = l.map f := by
  induction l with
  | nil => rfl
  | cons x xs ih => simp [ih]

theorem downloadProductsFor_ok {fetch : Fetch} {tiles : List Tile} {e : ℤ}
    {res cls : Option String} {region : Option Region} :
    ∀ {ps : List String} {l : List Dataset},
      (downloadProductsFor fetch tiles e res cls region ps).result = .ok l →
        l.length = ps.length ∧ ∀ d ∈ l, d.time = [timeCoordOf e] := by
  intro ps
  induction ps with
  | nil =>
    intro l h
    simp [downloadProductsFor] at h
    subst h
    simp
  | cons p ps ih =>
    intro l h
    rw [downloadProductsFor, Tr.bind_ok_iff] at h
    obtain ⟨ds, -, h⟩ := h
    rw [Tr.bind_ok_iff] at h
    obtain ⟨rest, hrest, h⟩ := h
    simp only [Except.ok.injEq] at h
    obtain ⟨hlen, htime⟩ := ih hrest
    subst h
    refine ⟨by simp [hlen], ?_⟩
    intro d hd
    rcases List.mem_cons.1 hd with h | h
    · subst h; rfl
    · exact htime d h

theorem downloadEpochsLoop_ok {fetch : Fetch} {tiles : List Tile}
    {products : List String} {res cls : Option String}
    {region : Option Region} :
    ∀ {es : List ℤ} {L : List Dataset},
      (downloadEpochsLoop fetch tiles products res cls region es).result
          = .ok L →
        L.map Dataset.time = es.map (fun e => [timeCoordOf e]) := by
  intro es
  induction es with
  | nil =>
    intro L h
    simp [downloadEpochsLoop] at h
    subst h
    simp
  | cons e es ih =>
    intro L h
    rw [downloadEpochsLoop, Tr.bind_ok_iff] at h
    obtain ⟨eds, heds, h⟩ := h
    by_cases hemp : eds.isEmpty
    · rw [if_pos hemp] at h
      simp [Tr.throw] at h
    · rw [if_neg hemp, Tr.bind_ok_iff] at h
      obtain ⟨rest, hrest, h⟩ := h
      simp only [Except.ok.injEq] at h
      subst h
      obtain ⟨-, htime⟩ := downloadProductsFor_ok heds
      have hmerge : (xrMergeList eds).time = [timeCoordOf e] := by
        obtain ⟨d, ds, rfl⟩ :=
          List.exists_cons_of_ne_nil (by simpa using hemp)
        simpa [xrMergeList] using htime d (by simp)
      simp [hmerge, ih hrest]

/-!  ## Claims  -/

/-- C1: evaluation of the fill-value consistency check of
`_download_and_process_zip` at the failing input `cTifsUnequal`: the three
recorded sentinel values 0, -1, 1 are not all identical, yet the assertion
`np.mean(fillvalues) == fillvalues[0]` passes (their mean is the first
value) and the merge succeeds instead of failing with the
inconsistent-no-data error. -/
theorem C1_inconsistent_fill_values_accepted :
    1 < ((cTifsUnequal.map TifFile.fillValue).dedup).length ∧
    (downloadAndProcessZip cFetchUnequal
        "https://example.invalid/archive.zip" (some cRegion)).result
      = .ok ⟨["GHS_SMOD"], []⟩ := by
  constructor
  · decide
  · decide

/-- C2: on a region-less (global) request, `download` fails with the
Python `TypeError` raised because `_download_global` calls
`_download_and_process_zip(url)` without the required `region_gdf`
argument — no fetch is attempted (the log is empty) and no Dataset is
returned, for every fetch stack and tile index. -/
theorem C2_global_download_raises_type_error (fetch : Fetch)
    (tiles : List Tile) :
    download fetch tiles (.str "GHS-POP") (.int 2020) none none none
      = ⟨[], .error .missingRegionArgument⟩ := rfl

/-- C3 (counterexample): a two-epoch request whose second epoch is invalid
does not fail before any download occurs — the run's log contains a fetch
attempt (the first epoch was downloaded) before the `InvalidEpoch` failure
for the second. -/
theorem C3_fetch_before_validation_cex :
    (download cFetch [cTile] (.str "GHS-POP") (.list [2020, 1234]) none none
        (some cRegion)).result
      = .error (.invalidEpoch "GHS-POP" 1234
          [1975, 1980, 1985, 1990, 1995, 2000, 2015, 2020, 2025, 2030]) ∧
    (download cFetch [cTile] (.str "GHS-POP") (.list [2020, 1234]) none none
        (some cRegion)).log.any
        (fun ev => match ev with
          | .fetchAttempt _ => true
          | _ => false) = true := by
  constructor
  · decide
  · decide

/-- C3 (amended): validation runs per `(product, epoch)` pair immediately
before that pair's fetch; in particular, for a request with a single
product and a single epoch, any validation failure aborts the run with
that error and an empty event log — before any fetch I/O. -/
theorem C3_single_request_validates_before_fetch (fetch : Fetch)
    (tiles : List Tile) (p : String) (e : ℤ)
    (res cls : Option String) (region : Option Region) (err : GhslError)
    (hv : validate_product_options p e res cls = .error err) :
    download fetch tiles (.str p) (.int e) res cls region
      = ⟨[], .error err⟩ := by
  simp [download, downloadProductsFor, download_single, hv, Tr.bind]

/-- Witness for C3: the single-epoch request for the invalid epoch 1234
fails with `InvalidEpoch` and performs no fetch. -/
theorem C3_single_request_validates_before_fetch_witness :
    download cFetch [cTile] (.str "GHS-POP") (.int 1234) none none
        (some cRegion)
      = ⟨[], .error (.invalidEpoch "GHS-POP" 1234
          [1975, 1980, 1985, 1990, 1995, 2000, 2015, 2020, 2025, 2030])⟩ :=
  C3_single_request_validates_before_fetch cFetch [cTile] "GHS-POP" 1234
    none none (some cRegion) _ rfl

/-- C7 (counterexample): the spec's example request for epochs
`[2000, 2010, 2020]` never produces a Dataset — no GHSL product has an
epoch 2010, so the request fails with `InvalidEpoch` even against a fully
functional fetch stack and an intersecting region. -/
theorem C7_example_epochs_cex :
    (download cFetch [cTile] (.str "GHS-POP") (.list [2000, 2010, 2020])
        none none (some cRegion)).result
      = .error (.invalidEpoch "GHS-POP" 2010
          [1975, 1980, 1985, 1990, 1995, 2000, 2015, 2020, 2025, 2030]) := by
  decide

/-- C7 (amended): whenever a list-epoch request returns a Dataset, its
time axis has exactly one coordinate `{epoch}-01-01` per requested epoch,
in request order, duplicates preserved — e.g. `[2000, 2015, 2020]` (valid
epochs) give `2000-01-01, 2015-01-01, 2020-01-01`. -/
theorem C7_time_axis_matches_requested_epochs (fetch : Fetch)
    (tiles : List Tile) (products : ProductsArg) (epochs : List ℤ)
    (res cls : Option String) (region : Option Region) (ds : Dataset)
    (h : (download fetch tiles products (.list epochs) res cls
        region).result = .ok ds) :
    ds.time = epochs.map timeCoordOf := by
  rw [download] at h
  rw [Tr.bind_ok_iff] at h
  obtain ⟨L, hL, h⟩ := h
  by_cases hemp : L.isEmpty
  · rw [if_pos hemp] at h
    simp [Tr.throw] at h
  · rw [if_neg hemp] at h
    simp only [Tr.pure, Except.ok.injEq] at h
    subst h
    have := downloadEpochsLoop_ok hL
    simp only [xrConcatTime]
    rw [this, flatten_map_singleton]

/-- Witness for C7: the concrete three-epoch request succeeds and its time
axis is `2000-01-01, 2015-01-01, 2020-01-01` in request order. -/
theorem C7_time_axis_matches_requested_epochs_witness :
    (download cFetch [cTile] (.str "GHS-POP") (.list [2000, 2015, 2020])
        none none (some cRegion)).result = .ok cDs3 ∧
    cDs3.time = [(2000 : ℤ), 2015, 2020].map timeCoordOf := by
  have h1 : (download cFetch [cTile] (.str "GHS-POP")
      (.list [2000, 2015, 2020]) none none (some cRegion)).result
        = .ok cDs3 := by decide
  exact ⟨h1, C7_time_axis_matches_requested_epochs cFetch [cTile]
    (.str "GHS-POP") [2000, 2015, 2020] none none (some cRegion) cDs3 h1⟩

/-- C10: whenever a single-(non-list-)epoch request returns a Dataset, the
Dataset still carries a time axis of length 1 whose coordinate is the
string `{epoch}-01-01`. -/
theorem C10_single_epoch_time_axis (fetch : Fetch) (tiles : List Tile)
    (products : ProductsArg) (e : ℤ) (res cls : Option String)
    (region : Option Region) (ds : Dataset)
    (h : (download fetch tiles products (.int e) res cls region).result
      = .ok ds) :
    ds.time = [timeCoordOf e] := by
  rw [download] at h
  rw [Tr.bind_ok_iff] at h
  obtain ⟨pds, hpds, h⟩ := h
  by_cases hemp : pds.isEmpty
  · rw [if_pos hemp] at h
    simp [Tr.throw] at h
  · rw [if_neg hemp] at h
    simp only [Tr.pure, Except.ok.injEq] at h
    subst h
    obtain ⟨-, htime⟩ := downloadProductsFor_ok hpds
    obtain ⟨d, ds', rfl⟩ := List.exists_cons_of_ne_nil (by simpa using hemp)
    simpa [xrMergeList] using htime d (by simp)

theorem tileLoop_spec (fetch : Fetch)
    (base product projection resolution version : String) (region : Region) :
    ∀ ts : List Tile,
      tileLoop fetch
          (fun tid => tileUrl base product projection resolution version tid)
          region ts =
        ((ts.map (tileLogOf fetch base product projection resolution version
            region)).flatten,
         ts.filterMap (fun t => (tileOutcome fetch base product projection
            resolution version region t).result.toOption)) := by
  intro ts
  induction ts with
  | nil => rfl
  | cons t ts ih =>
    rw [tileLoop, ih]
    rcases h : (tileOutcome fetch base product projection resolution version
        region t).result with e | ds
    · simp [tileOutcome] at h
      simp [tileLogOf, tileOutcome, h, Except.toOption]
    · simp [tileOutcome] at h
      simp [tileLogOf, tileOutcome, h, Except.toOption]

/-- C8: the tiled-download failure policy of `_download_tiles`.  With the
product's catalog entry and URL pattern resolved: (a) a region meeting no
tiles fails with the no-intersecting-tiles error before any fetch; (b) the
event log is exactly, tile by tile in order, each tile's fetch attempt
followed — when that tile failed — by its warning, so a failed tile is
warned about and processing continues with the remaining tiles; (c) if the
selection is nonempty but no tile succeeds, the build fails with the
no-data-available error; (d) if any tile succeeds, the build returns the
merge of exactly the successful tiles' datasets. -/
theorem C8_tile_failure_policy (fetch : Fetch) (tiles : List Tile)
    (product : String) (epoch : ℤ)
    (projection resolution version : String) (region : Region)
    (cls : Option String) (info : ProductInfo) (pattern : String)
    (h1 : get_product_info (pyReplace product "_" "-") = .ok info)
    (h2 : urlPatternGet info cls = some pattern) :
    (intersectingTiles tiles region = [] →
      downloadTiles fetch tiles product epoch projection resolution version
          region cls = ⟨[], .error .noIntersectingTiles⟩) ∧
    ((downloadTiles fetch tiles product epoch projection resolution version
        region cls).log =
      ((intersectingTiles tiles region).map
        (tileLogOf fetch (pyFormat pattern product epoch cls) product
          projection resolution version region)).flatten) ∧
    (intersectingTiles tiles region ≠ [] →
      (intersectingTiles tiles region).filterMap
          (fun t => (tileOutcome fetch (pyFormat pattern product epoch cls)
            product projection resolution version region t).result.toOption)
        = [] →
      (downloadTiles fetch tiles product epoch projection resolution version
          region cls).result = .error .noTilesDownloaded) ∧
    ((intersectingTiles tiles region).filterMap
          (fun t => (tileOutcome fetch (pyFormat pattern product epoch cls)
            product projection resolution version region t).result.toOption)
        ≠ [] →
      (downloadTiles fetch tiles product epoch projection resolution version
          region cls).result = .ok (xrMergeList
            ((intersectingTiles tiles region).filterMap
              (fun t => (tileOutcome fetch (pyFormat pattern product epoch
                cls) product projection resolution version region
                t).result.toOption)))) := by
  have hd : downloadTiles fetch tiles product epoch projection resolution
      version region cls = downloadTilesCore fetch tiles
        (pyFormat pattern product epoch cls) product projection resolution
        version region := by
    unfold downloadTiles
    simp only [h1, h2]
  rw [hd]
  unfold downloadTilesCore
  rw [tileLoop_spec]
  by_cases hemp : (intersectingTiles tiles region).isEmpty
  · have hnil : intersectingTiles tiles region = [] := by simpa using hemp
    rw [if_pos hemp]
    refine ⟨fun _ => rfl, by simp [hnil], fun h => absurd hnil h, fun h => ?_⟩
    rw [hnil] at h
    simp at h
  · have hne : intersectingTiles tiles region ≠ [] := by simpa using hemp
    rw [if_neg hemp]
    refine ⟨fun h => absurd h hne, ?_, fun _ hsucc => ?_, fun hsucc => ?_⟩
    · by_cases hs : ((intersectingTiles tiles region).filterMap
          (fun t => (tileOutcome fetch (pyFormat pattern product epoch cls)
            product projection resolution version region
            t).result.toOption)).isEmpty
      · rw [if_pos hs]
      · rw [if_neg hs]
    · rw [if_pos (by simpa using hsucc)]
    · rw [if_neg (by simpa using hsucc)]

/-- Witness for C8: with two intersecting tiles, the fetch of tile R1_C1
failing and the fetch of tile R1_C2 succeeding, the build succeeds with
the surviving tile's data and the warning for the failed tile is in the
log. -/
theorem C8_tile_failure_policy_witness :
    (downloadTiles cFetchFailA [cTileA, cTileB] "GHS_POP" 2020 "54009"
        "100" "V1-0" cRegionAB none).result = .ok ⟨["GHS_POP"], []⟩ ∧
    Event.warning "R1_C1" (.fetchFailed "HTTP Error 404") ∈
      (downloadTiles cFetchFailA [cTileA, cTileB] "GHS_POP" 2020 "54009"
        "100" "V1-0" cRegionAB none).log := by
  obtain ⟨-, hlog, -, hok⟩ := C8_tile_failure_policy cFetchFailA
    [cTileA, cTileB] "GHS_POP" 2020 "54009" "100" "V1-0" cRegionAB none
    GHS_POP_info "\x7bproduct\x7d_E\x7bepoch\x7d" rfl rfl
  constructor
  · exact (hok (by decide)).trans (by decide)
  · rw [hlog]
    decide

theorem transLoop_map_fst :
    ∀ (l : List (ℤ × Finset (ℤ × ℤ))) (pu : Option (Finset (ℤ × ℤ))),
      (transLoop l pu).map Prod.fst = l.map Prod.fst := by
  intro l
  induction l with
  | nil => intro pu; rfl
  | cons hd rest ih =>
    intro pu
    obtain ⟨y, g⟩ := hd
    simp [transLoop, ih]

theorem unionOfList_cons (g : Finset (ℤ × ℤ)) (l : List (Finset (ℤ × ℤ))) :
    unionOfList (g :: l) = g ∪ unionOfList l := rfl

theorem transLoop_getElem? :
    ∀ (l : List (ℤ × Finset (ℤ × ℤ))) (pu : Option (Finset (ℤ × ℤ)))
      (i : ℕ),
      (transLoop l pu)[i]? = (l[i]?).map
        (fun yg => (yg.1, yg.2 \ (pastUnionD pu ∪ cumulativeUnion l i))) := by
  intro l
  induction l with
  | nil => intro pu i; simp [transLoop]
  | cons hd rest ih =>
    intro pu i
    obtain ⟨y, g⟩ := hd
    match i with
    | 0 =>
      cases pu <;>
        simp [transLoop, cumulativeUnion, unionOfList, pastUnionD]
    | i + 1 =>
      have hcum : cumulativeUnion ((y, g) :: rest) (i + 1)
          = g ∪ cumulativeUnion rest i := rfl
      cases pu with
      | none =>
        simp only [transLoop, List.getElem?_cons_succ]
        rw [ih (some g) i, hcum]
        cases rest[i]? with
        | none => rfl
        | some yg => simp [pastUnionD]
      | some pu' =>
        simp only [transLoop, List.getElem?_cons_succ]
        rw [ih (some (pu' ∪ g)) i, hcum]
        cases rest[i]? with
        | none => rfl
        | some yg => simp [pastUnionD, Finset.union_assoc]

theorem transLoop_disjoint_acc :
    ∀ (l : List (ℤ × Finset (ℤ × ℤ))) (pu : Option (Finset (ℤ × ℤ)))
      (x : ℤ × Finset (ℤ × ℤ)), x ∈ transLoop l pu →
        Disjoint x.2 (pastUnionD pu) := by
  intro l
  induction l with
  | nil => intro pu x hx; simp [transLoop] at hx
  | cons hd rest ih =>
    intro pu x hx
    obtain ⟨y, g⟩ := hd
    simp only [transLoop] at hx
    rcases List.mem_cons.1 hx with h | h
    · subst h
      cases pu with
      | none => simp [pastUnionD]
      | some pu' => simpa [pastUnionD] using Finset.sdiff_disjoint
    · cases pu with
      | none => simp [pastUnionD]
      | some pu' =>
        have := ih _ x h
        simp only [pastUnionD] at this ⊢
        exact (Finset.disjoint_union_right.1 this).1

theorem transLoop_pairwise_disjoint :
    ∀ (l : List (ℤ × Finset (ℤ × ℤ))) (pu : Option (Finset (ℤ × ℤ))),
      List.Pairwise (fun a b => Disjoint a.2 b.2) (transLoop l pu) := by
  intro l
  induction l with
  | nil => intro pu; simp [transLoop]
  | cons hd rest ih =>
    intro pu
    obtain ⟨y, g⟩ := hd
    simp only [transLoop]
    cases pu with
    | none =>
      refine List.Pairwise.cons ?_ (ih _)
      intro b hb
      have hacc := transLoop_disjoint_acc _ _ b hb
      simp only [pastUnionD] at hacc
      exact hacc.symm
    | some pu' =>
      refine List.Pairwise.cons ?_ (ih _)
      intro b hb
      have hacc := transLoop_disjoint_acc _ _ b hb
      simp only [pastUnionD] at hacc
      exact (hacc.mono_right
        ((Finset.sdiff_subset).trans Finset.subset_union_right)).symm

theorem transLoop_union :
    ∀ (l : List (ℤ × Finset (ℤ × ℤ))) (pu : Option (Finset (ℤ × ℤ))),
      unionOfList ((transLoop l pu).map Prod.snd) ∪ pastUnionD pu
        = unionOfList (l.map Prod.snd) ∪ pastUnionD pu := by
  intro l
  induction l with
  | nil => intro pu; rfl
  | cons hd rest ih =>
    intro pu
    obtain ⟨y, g⟩ := hd
    simp only [transLoop, List.map_cons]
    cases pu with
    | none =>
      rw [unionOfList_cons, unionOfList_cons]
      have h := ih (some g)
      simp only [pastUnionD] at h ⊢
      ext a
      have ha := Finset.ext_iff.mp h a
      simp only [Finset.mem_union, Finset.not_mem_empty, or_false] at ha ⊢
      tauto
    | some pu' =>
      rw [unionOfList_cons, unionOfList_cons]
      have h := ih (some (pu' ∪ g))
      simp only [pastUnionD] at h ⊢
      ext a
      have ha := Finset.ext_iff.mp h a
      simp only [Finset.mem_union, Finset.mem_sdiff] at ha ⊢
      tauto

/-- C4: characterization of `smod_year_of_transition`.  The output has one
record per distinct calendar year of the rows in the target category
(`Urban Centre grid cell`), in strictly ascending year order; record `i`
carries year `i`'s dissolved polygon minus the cumulative union of all
strictly earlier years' dissolved polygons; the earliest record equals its
dissolved polygon unchanged; and a year contained in the cumulative union
of the earlier years yields the empty geometry. -/
theorem C4_transition_characterization (rows : List SmodRow) :
    ((smod_year_of_transition rows).map Prod.fst).Sorted (· < ·) ∧
    (∀ y : ℤ, y ∈ (smod_year_of_transition rows).map Prod.fst ↔
      ∃ r ∈ rows, r.GHS_SMOD = urbanCentreLabel ∧ yearOf r = y) ∧
    (∀ i : ℕ, (smod_year_of_transition rows)[i]? =
      ((yearlyDissolved rows)[i]?).map
        (fun yg => (yg.1, yg.2 \ cumulativeUnion (yearlyDissolved rows) i)))
      ∧
    ((smod_year_of_transition rows)[0]? = (yearlyDissolved rows)[0]?) ∧
    (∀ i : ℕ, ∀ y : ℤ, ∀ g : Finset (ℤ × ℤ),
      (yearlyDissolved rows)[i]? = some (y, g) →
      g ⊆ cumulativeUnion (yearlyDissolved rows) i →
      (smod_year_of_transition rows)[i]? = some (y, ∅)) := by
  have hfst : (smod_year_of_transition rows).map Prod.fst
      = transitionYears rows := by
    rw [smod_year_of_transition, transLoop_map_fst, yearlyDissolved,
      List.map_map,
      show (Prod.fst ∘ fun y => (y, dissolveYear rows y)) = id from rfl,
      List.map_id]
  have hidx : ∀ i : ℕ, (smod_year_of_transition rows)[i]? =
      ((yearlyDissolved rows)[i]?).map
        (fun yg => (yg.1, yg.2 \ cumulativeUnion (yearlyDissolved rows) i))
      := by
    intro i
    rw [smod_year_of_transition, transLoop_getElem?]
    cases (yearlyDissolved rows)[i]? with
    | none => rfl
    | some yg => simp [pastUnionD]
  refine ⟨?_, ?_, hidx, ?_, ?_⟩
  · rw [hfst, transitionYears]
    have hperm := List.perm_insertionSort (· ≤ ·)
      (((smodFiltered rows).map yearOf).dedup)
    have hnd : (((smodFiltered rows).map yearOf).dedup.insertionSort
        (· ≤ ·)).Nodup :=
      hperm.nodup_iff.mpr (List.nodup_dedup _)
    have hsorted := List.sorted_insertionSort (· ≤ ·)
      (((smodFiltered rows).map yearOf).dedup)
    exact (hsorted.and hnd).imp (fun h => lt_of_le_of_ne h.1 h.2)
  · intro y
    rw [hfst, transitionYears]
    rw [(List.perm_insertionSort (· ≤ ·) _).mem_iff, List.mem_dedup]
    simp only [List.mem_map, smodFiltered, List.mem_filter,
      decide_eq_true_eq]
    constructor
    · rintro ⟨r, ⟨hr, hl⟩, hy⟩
      exact ⟨r, hr, hl, hy⟩
    · rintro ⟨r, hr, hl, hy⟩
      exact ⟨r, ⟨hr, hl⟩, hy⟩
  · rw [hidx 0]
    cases h0 : (yearlyDissolved rows)[0]? with
    | none => rfl
    | some yg => simp [cumulativeUnion, unionOfList]
  · intro i y g hy hsub
    rw [hidx i, hy]
    simp [Finset.sdiff_eq_empty_iff_subset.mpr hsub]

/-- Witness for C4: in the shrinkage fixture the year-2010 geometry is a
strict subset of the cumulative union of the earlier year 2000, so the
2010 transition record carries the empty geometry. -/
theorem C4_transition_characterization_witness :
    (smod_year_of_transition cRowsShrink)[1]?
      = some (2010, (∅ : Finset (ℤ × ℤ))) := by
  have h := C4_transition_characterization cRowsShrink
  exact h.2.2.2.2 1 2010 {((0 : ℤ), (0 : ℤ))} (by decide) (by decide)

/-- C5: the transition records output by `smod_year_of_transition` are
pairwise disjoint and their union equals the union of all yearly dissolved
polygons; in particular with dissolved areas A ⊆ B for years 2000 and 2010
the outputs A and B minus A tile B without overlap. -/
theorem C5_transition_disjoint_union (rows : List SmodRow) :
    List.Pairwise (fun a b => Disjoint a.2 b.2)
      (smod_year_of_transition rows) ∧
    unionOfList ((smod_year_of_transition rows).map Prod.snd)
      = unionOfList ((yearlyDissolved rows).map Prod.snd) := by
  refine ⟨transLoop_pairwise_disjoint _ _, ?_⟩
  have h := transLoop_union (yearlyDissolved rows) none
  simpa [smod_year_of_transition, pastUnionD] using h

theorem lookupA_eq_some_of_mem {α β : Type} [DecidableEq α] :
    ∀ {l : List (α × β)} {a : α} {b : β},
      (l.map Prod.fst).Nodup → (a, b) ∈ l → lookupA l a = some b := by
  intro l
  induction l with
  | nil => intro a b _ h; simp at h
  | cons kv rest ih =>
    intro a b hnd hmem
    obtain ⟨k, v⟩ := kv
    rcases List.mem_cons.1 hmem with h | h
    · injection h with h1 h2
      subst h1
      subst h2
      simp [lookupA]
    · have hk : k ≠ a := by
        rintro rfl
        exact (List.nodup_cons.1 hnd).1
          (List.mem_map.2 ⟨(k, b), h, rfl⟩)
      simp only [lookupA, if_neg hk]
      exact ih (List.nodup_cons.1 hnd).2 h

theorem lookupA_eq_none {α β : Type} [DecidableEq α] :
    ∀ {l : List (α × β)} {a : α},
      a ∉ l.map Prod.fst → lookupA l a = none := by
  intro l
  induction l with
  | nil => intro a _; rfl
  | cons kv rest ih =>
    intro a h
    obtain ⟨k, v⟩ := kv
    simp only [List.map_cons, List.mem_cons] at h
    push_neg at h
    simp only [lookupA, if_neg (Ne.symm h.1)]
    exact ih h.2

/-- C9: `_apply_smod_classification` preserves each row's raw numeric code
in `class_value`, replaces the primary `GHS_SMOD` attribute by the label
mapped from the truncated code through the product's class table (rendering
unmapped codes as `Unknown class <code>`), and attaches a `domain`
attribute mapped from the same code through the domain table (rendering
unmapped codes as `Unknown domain`); NaN rows are left unmapped. -/
theorem C9_smod_classification_attributes (rows : List VectorizedRow)
    (i : ℕ) (r : VectorizedRow) (hr : rows[i]? = some r) :
    ∃ o : ClassifiedRow,
      (apply_smod_classification rows)[i]? = some o ∧
      o.class_value = r.GHS_SMOD ∧
      (r.GHS_SMOD = none → o.GHS_SMOD = none ∧ o.domain = none) ∧
      (∀ x : ℚ, r.GHS_SMOD = some x →
        (∀ lbl : String, (pyInt x, lbl) ∈ GHS_SMOD_info.class_values →
          o.GHS_SMOD = some lbl) ∧
        (pyInt x ∉ GHS_SMOD_info.class_values.map Prod.fst →
          o.GHS_SMOD = some s!"Unknown class {pyInt x}") ∧
        (∀ d : String, (pyInt x, d) ∈ GHS_SMOD_info.domains →
          o.domain = some d) ∧
        (pyInt x ∉ GHS_SMOD_info.domains.map Prod.fst →
          o.domain = some "Unknown domain")) := by
  have happ : apply_smod_classification rows = rows.map (fun rr =>
      ({ class_value := rr.GHS_SMOD
         GHS_SMOD := rr.GHS_SMOD.map fun x =>
           (lookupA GHS_SMOD_info.class_values (pyInt x)).getD
             s!"Unknown class {pyInt x}"
         domain := rr.GHS_SMOD.map fun x =>
           (lookupA GHS_SMOD_info.domains (pyInt x)).getD
             "Unknown domain" } : ClassifiedRow)) := rfl
  refine ⟨_, by rw [happ, List.getElem?_map, hr]; rfl, rfl, ?_, ?_⟩
  · intro hnone
    simp [hnone]
  · intro x hx
    refine ⟨?_, ?_, ?_, ?_⟩
    · intro lbl hmem
      have hl := lookupA_eq_some_of_mem
        (l := GHS_SMOD_info.class_values) (by decide) hmem
      simp [hx, hl]
    · intro hnot
      have hl := lookupA_eq_none (l := GHS_SMOD_info.class_values) hnot
      simp [hx, hl]
    · intro d hmem
      have hl := lookupA_eq_some_of_mem
        (l := GHS_SMOD_info.domains) (by decide) hmem
      simp [hx, hl]
    · intro hnot
      have hl := lookupA_eq_none (l := GHS_SMOD_info.domains) hnot
      simp [hx, hl]

/-- Witness for C9: the unmapped code 99 keeps its raw value in
`class_value`, renders as `Unknown class 99` and as `Unknown domain`. -/
theorem C9_smod_classification_attributes_witness :
    (apply_smod_classification cRows99)[0]?
      = some ⟨some 99, some "Unknown class 99", some "Unknown domain"⟩ := by
  obtain ⟨o, ho, hcv, -, hx⟩ :=
    C9_smod_classification_attributes cRows99 0 ⟨some 99⟩ rfl
  obtain ⟨-, hunk, -, hdunk⟩ := hx 99 rfl
  have h1 := hunk (by decide)
  have h2 := hdunk (by decide)
  rw [ho]
  cases o
  cases hcv
  cases h1
  cases h2
  decide

theorem growIter_subset_mask {H W : ℕ} (mask : Finset (Cell H W))
    (a : Cell H W) : ∀ n : ℕ, growIter mask a n ⊆ mask := by
  intro n
  cases n with
  | zero => exact Finset.filter_subset _ _
  | succ n => exact Finset.filter_subset _ _

theorem subset_growStep {H W : ℕ} {mask s : Finset (Cell H W)}
    (hs : s ⊆ mask) : s ⊆ growStep mask s := by
  intro q hq
  exact Finset.mem_filter.2 ⟨hs hq, Or.inl hq⟩

theorem growIter_mono {H W : ℕ} (mask : Finset (Cell H W)) (a : Cell H W)
    (n : ℕ) : growIter mask a n ⊆ growIter mask a (n + 1) :=
  subset_growStep (growIter_subset_mask mask a n)

theorem growIter_mono_le {H W : ℕ} (mask : Finset (Cell H W))
    (a : Cell H W) {m n : ℕ} (h : m ≤ n) :
    growIter mask a m ⊆ growIter mask a n := by
  induction n, h using Nat.le_induction with
  | base => exact subset_rfl
  | succ n hmn ih => exact ih.trans (growIter_mono mask a n)

theorem growIter_stab {H W : ℕ} (mask : Finset (Cell H W)) (a : Cell H W)
    (n : ℕ) (h : growIter mask a (n + 1) = growIter mask a n) :
    ∀ m : ℕ, n ≤ m → growIter mask a m = growIter mask a n := by
  intro m hm
  induction m, hm using Nat.le_induction with
  | base => rfl
  | succ m hnm ih =>
    show growStep mask (growIter mask a m) = _
    rw [ih]
    exact h

theorem growIter_card_ge {H W : ℕ} (mask : Finset (Cell H W))
    (a : Cell H W) :
    ∀ n : ℕ, (∀ k, k < n → growIter mask a (k + 1) ≠ growIter mask a k) →
      n ≤ (growIter mask a n).card := by
  intro n
  induction n with
  | zero => intro _; exact Nat.zero_le _
  | succ n ih =>
    intro h
    have h1 : growIter mask a n ⊂ growIter mask a (n + 1) :=
      (growIter_mono mask a n).ssubset_of_ne
        (Ne.symm (h n (Nat.lt_succ_self n)))
    have h2 := Finset.card_lt_card h1
    have h3 := ih (fun k hk => h k (hk.trans (Nat.lt_succ_self n)))
    omega

theorem growStep_fixpoint {H W : ℕ} (mask : Finset (Cell H W))
    (a : Cell H W) :
    growStep mask (componentOf mask a) = componentOf mask a := by
  show growIter mask a (H * W + 1) = growIter mask a (H * W)
  by_cases hex : ∃ k, k < H * W ∧ growIter mask a (k + 1) = growIter mask a k
  · obtain ⟨k, hk, he⟩ := hex
    rw [growIter_stab mask a k he (H * W) hk.le,
      growIter_stab mask a k he (H * W + 1) (by omega)]
  · push_neg at hex
    have hge := growIter_card_ge mask a (H * W) hex
    have hsub := growIter_subset_mask mask a (H * W)
    have hle : (growIter mask a (H * W)).card ≤ mask.card :=
      Finset.card_le_card hsub
    have hm : mask.card ≤ H * W := by
      have := Finset.card_le_univ mask
      simpa [Fintype.card_prod] using this
    have heq : growIter mask a (H * W) = mask :=
      Finset.eq_of_subset_of_card_le hsub (by omega)
    show growStep mask (growIter mask a (H * W)) = _
    rw [heq]
    ext q
    simp only [growStep, Finset.mem_filter]
    tauto

theorem mem_growIter_rtg {H W : ℕ} (mask : Finset (Cell H W))
    (a : Cell H W) :
    ∀ (n : ℕ) (q : Cell H W), q ∈ growIter mask a n →
      a ∈ mask ∧ Relation.ReflTransGen (stepRel mask) a q := by
  intro n
  induction n with
  | zero =>
    intro q hq
    obtain ⟨hqm, hqa⟩ := Finset.mem_filter.1 hq
    subst hqa
    exact ⟨hqm, .refl⟩
  | succ n ih =>
    intro q hq
    obtain ⟨hqm, hor⟩ := Finset.mem_filter.1 hq
    rcases hor with hq' | ⟨p, hp, hadj⟩
    · exact ih q hq'
    · obtain ⟨ha, hrtg⟩ := ih p hp
      exact ⟨ha, hrtg.tail ⟨growIter_subset_mask mask a n hp, hqm, hadj⟩⟩

theorem rtg_mem_componentOf {H W : ℕ} (mask : Finset (Cell H W))
    {a q : Cell H W} (ha : a ∈ mask)
    (h : Relation.ReflTransGen (stepRel mask) a q) :
    q ∈ componentOf mask a := by
  induction h with
  | refl =>
    have h0 : a ∈ growIter mask a 0 := Finset.mem_filter.2 ⟨ha, rfl⟩
    exact growIter_mono_le mask a (Nat.zero_le _) h0
  | tail hab hbc ih =>
    rw [← growStep_fixpoint mask a]
    exact Finset.mem_filter.2 ⟨hbc.2.1, Or.inr ⟨_, ih, hbc.2.2⟩⟩

theorem mem_componentOf_iff {H W : ℕ} (mask : Finset (Cell H W))
    (a q : Cell H W) :
    q ∈ componentOf mask a ↔
      a ∈ mask ∧ Relation.ReflTransGen (stepRel mask) a q :=
  ⟨fun h => mem_growIter_rtg mask a _ q h,
   fun h => rtg_mem_componentOf mask h.1 h.2⟩

theorem adj8_symm {H W : ℕ} {p q : Cell H W} (h : adj8 p q) : adj8 q p := by
  obtain ⟨hne, h1, h2⟩ := h
  refine ⟨hne.symm, ?_, ?_⟩
  · rw [show ((q.1 : ℤ) - (p.1 : ℤ)) = -((p.1 : ℤ) - (q.1 : ℤ)) by ring,
      Int.natAbs_neg]
    exact h1
  · rw [show ((q.2 : ℤ) - (p.2 : ℤ)) = -((p.2 : ℤ) - (q.2 : ℤ)) by ring,
      Int.natAbs_neg]
    exact h2

theorem stepRel_symm {H W : ℕ} (mask : Finset (Cell H W)) :
    Symmetric (stepRel mask) :=
  fun _ _ h => ⟨h.2.1, h.1, adj8_symm h.2.2⟩

theorem rtg_step_symm {H W : ℕ} (mask : Finset (Cell H W))
    {a b : Cell H W} (h : Relation.ReflTransGen (stepRel mask) a b) :
    Relation.ReflTransGen (stepRel mask) b a :=
  Relation.ReflTransGen.symmetric (stepRel_symm mask) h

theorem componentOf_eq_iff {H W : ℕ} (mask : Finset (Cell H W))
    {a b : Cell H W} (ha : a ∈ mask) (hb : b ∈ mask) :
    componentOf mask a = componentOf mask b ↔
      Relation.ReflTransGen (stepRel mask) a b := by
  constructor
  · intro h
    have hbb : b ∈ componentOf mask b := rtg_mem_componentOf mask hb .refl
    rw [← h] at hbb
    exact ((mem_componentOf_iff mask a b).1 hbb).2
  · intro h
    ext q
    rw [mem_componentOf_iff, mem_componentOf_iff]
    constructor
    · rintro ⟨-, hq⟩
      exact ⟨hb, (rtg_step_symm mask h).trans hq⟩
    · rintro ⟨-, hq⟩
      exact ⟨ha, h.trans hq⟩

theorem componentOf_subset_mask {H W : ℕ} (mask : Finset (Cell H W))
    (a : Cell H W) : componentOf mask a ⊆ mask :=
  growIter_subset_mask mask a _

theorem self_mem_componentOf {H W : ℕ} (mask : Finset (Cell H W))
    {a : Cell H W} (ha : a ∈ mask) : a ∈ componentOf mask a :=
  rtg_mem_componentOf mask ha .refl

theorem mem_componentsOf_iff {H W : ℕ} (mask : Finset (Cell H W))
    {comp : Finset (Cell H W)} :
    comp ∈ componentsOf mask ↔ ∃ a ∈ mask, componentOf mask a = comp :=
  Finset.mem_image

theorem exists_near_iff {H W : ℕ} (mask : Finset (Cell H W))
    (c : Cell H W) (r : ℕ) :
    (∃ comp ∈ componentsOf mask, compNear comp c r) ↔
      ∃ a ∈ mask, sqdist a c < r * r := by
  constructor
  · rintro ⟨comp, hcomp, hnear⟩
    obtain ⟨a0, ha0, rfl⟩ := (mem_componentsOf_iff mask).1 hcomp
    obtain ⟨q, hq, hlt⟩ := hnear
    exact ⟨q, componentOf_subset_mask mask a0 hq, hlt⟩
  · rintro ⟨a, ha, hlt⟩
    exact ⟨componentOf mask a, Finset.mem_image_of_mem _ ha,
      a, self_mem_componentOf mask ha, hlt⟩

theorem one_lt_near_count_iff {H W : ℕ} (mask : Finset (Cell H W))
    (c : Cell H W) (r : ℕ) :
    (1 < ((componentsOf mask).filter
        (fun comp => compNear comp c r)).card) ↔
      ∃ a ∈ mask, ∃ b ∈ mask, sqdist a c < r * r ∧ sqdist b c < r * r ∧
        ¬ Relation.ReflTransGen (stepRel mask) a b := by
  rw [Finset.one_lt_card]
  constructor
  · rintro ⟨x, hx, y, hy, hxy⟩
    obtain ⟨hxm, hxnear⟩ := Finset.mem_filter.1 hx
    obtain ⟨hym, hynear⟩ := Finset.mem_filter.1 hy
    obtain ⟨a0, ha0, rfl⟩ := (mem_componentsOf_iff mask).1 hxm
    obtain ⟨b0, hb0, rfl⟩ := (mem_componentsOf_iff mask).1 hym
    obtain ⟨qa, hqa, hlta⟩ := hxnear
    obtain ⟨qb, hqb, hltb⟩ := hynear
    have hqam : qa ∈ mask := componentOf_subset_mask mask a0 hqa
    have hqbm : qb ∈ mask := componentOf_subset_mask mask b0 hqb
    refine ⟨qa, hqam, qb, hqbm, hlta, hltb, fun hcon => hxy ?_⟩
    have h1 : componentOf mask a0 = componentOf mask qa :=
      (componentOf_eq_iff mask ha0 hqam).2
        ((mem_componentOf_iff mask a0 qa).1 hqa).2
    have h2 : componentOf mask b0 = componentOf mask qb :=
      (componentOf_eq_iff mask hb0 hqbm).2
        ((mem_componentOf_iff mask b0 qb).1 hqb).2
    rw [h1, h2]
    exact (componentOf_eq_iff mask hqam hqbm).2 hcon
  · rintro ⟨a, ha, b, hb, hna, hnb, hcon⟩
    refine ⟨componentOf mask a,
      Finset.mem_filter.2 ⟨Finset.mem_image_of_mem _ ha,
        a, self_mem_componentOf mask ha, hna⟩,
      componentOf mask b,
      Finset.mem_filter.2 ⟨Finset.mem_image_of_mem _ hb,
        b, self_mem_componentOf mask hb, hnb⟩,
      fun heq => hcon ((componentOf_eq_iff mask ha hb).1 heq)⟩

/-- C6: characterization of `monocentric_polycentric_pattern` at each cell.
The binary urban mask is exactly the cells of the density grid at or above
`density_threshold`; components are the 8-connected components of that mask
(`stepRel` closure); writing `near a` for "the Euclidean distance from `a`
to the cell is strictly below `search_radius`" (stated on squares): the
cell is classified 0 iff no mask cell is near (in particular whenever the
mask — hence the component set — is empty), 1 iff some mask cell is near
and all near mask cells belong to one component, and 2 iff near mask cells
of more than one component exist. -/
theorem C6_pattern_classification_characterization {H W : ℕ}
    (density : Cell H W → ℚ) (density_threshold : ℚ) (search_radius : ℕ)
    (c : Cell H W) :
    (∀ q : Cell H W, q ∈ urban_centers density density_threshold ↔
      density_threshold ≤ density q) ∧
    (urban_centers density density_threshold = ∅ →
      monocentric_polycentric_pattern density density_threshold
        search_radius c = 0) ∧
    (monocentric_polycentric_pattern density density_threshold
        search_radius c = 0 ↔
      ∀ a ∈ urban_centers density density_threshold,
        ¬ (sqdist a c < search_radius * search_radius)) ∧
    (monocentric_polycentric_pattern density density_threshold
        search_radius c = 1 ↔
      (∃ a ∈ urban_centers density density_threshold,
        sqdist a c < search_radius * search_radius) ∧
      ∀ a ∈ urban_centers density density_threshold,
        ∀ b ∈ urban_centers density density_threshold,
          sqdist a c < search_radius * search_radius →
          sqdist b c < search_radius * search_radius →
          Relation.ReflTransGen
            (stepRel (urban_centers density density_threshold)) a b) ∧
    (monocentric_polycentric_pattern density density_threshold
        search_radius c = 2 ↔
      ∃ a ∈ urban_centers density density_threshold,
        ∃ b ∈ urban_centers density density_threshold,
          sqdist a c < search_radius * search_radius ∧
          sqdist b c < search_radius * search_radius ∧
          ¬ Relation.ReflTransGen
            (stepRel (urban_centers density density_threshold)) a b) := by
  refine ⟨fun q => by simp [urban_centers], ?_⟩
  have hcls : monocentric_polycentric_pattern density density_threshold
      search_radius c =
      (if componentsOf (urban_centers density density_threshold) = ∅ then 0
       else if 1 < ((componentsOf (urban_centers density
           density_threshold)).filter
             (fun comp => compNear comp c search_radius)).card then 2
       else if ∃ comp ∈ componentsOf (urban_centers density
           density_threshold), compNear comp c search_radius then 1
       else 0) := rfl
  by_cases hempty :
      componentsOf (urban_centers density density_threshold) = ∅
  · have hmaskempty : urban_centers density density_threshold = ∅ :=
      Finset.image_eq_empty.1 hempty
    rw [hcls, if_pos hempty]
    refine ⟨fun _ => rfl, ?_, ?_, ?_⟩
    · simp [hmaskempty]
    · simp [hmaskempty]
    · simp [hmaskempty]
  · have hmaskne : ∀ hm : urban_centers density density_threshold = ∅,
        False := by
      intro hm
      apply hempty
      rw [componentsOf, hm]
      exact Finset.image_empty _
    rw [hcls, if_neg hempty]
    by_cases hcount : 1 < ((componentsOf (urban_centers density
        density_threshold)).filter
          (fun comp => compNear comp c search_radius)).card
    · rw [if_pos hcount]
      have h2 := (one_lt_near_count_iff _ c search_radius).1 hcount
      refine ⟨fun hm => (hmaskne hm).elim, ?_, ?_, ?_⟩
      · refine iff_of_false (by decide) ?_
        intro hall
        obtain ⟨a, ha, b, hb, hna, -, -⟩ := h2
        exact hall a ha hna
      · refine iff_of_false (by decide) ?_
        rintro ⟨-, hallconn⟩
        obtain ⟨a, ha, b, hb, hna, hnb, hcon⟩ := h2
        exact hcon (hallconn a ha b hb hna hnb)
      · exact iff_of_true rfl h2
    · rw [if_neg hcount]
      by_cases hany : ∃ comp ∈ componentsOf (urban_centers density
          density_threshold), compNear comp c search_radius
      · rw [if_pos hany]
        have hex := (exists_near_iff _ c search_radius).1 hany
        refine ⟨fun hm => (hmaskne hm).elim, ?_, ?_, ?_⟩
        · refine iff_of_false (by decide) ?_
          intro hall
          obtain ⟨a, ha, hna⟩ := hex
          exact hall a ha hna
        · refine iff_of_true rfl ⟨hex, ?_⟩
          intro a ha b hb hna hnb
          by_contra hcon
          exact hcount ((one_lt_near_count_iff _ c search_radius).2
            ⟨a, ha, b, hb, hna, hnb, hcon⟩)
        · refine iff_of_false (by decide) ?_
          rintro ⟨a, ha, b, hb, hna, hnb, hcon⟩
          exact hcount ((one_lt_near_count_iff _ c search_radius).2
            ⟨a, ha, b, hb, hna, hnb, hcon⟩)
      · rw [if_neg hany]
        have hnone : ∀ a ∈ urban_centers density density_threshold,
            ¬ (sqdist a c < search_radius * search_radius) := by
          intro a ha hna
          exact hany ((exists_near_iff _ c search_radius).2 ⟨a, ha, hna⟩)
        refine ⟨fun _ => rfl, iff_of_true rfl hnone, ?_, ?_⟩
        · refine iff_of_false (by decide) ?_
          rintro ⟨⟨a, ha, hna⟩, -⟩
          exact hnone a ha hna
        · refine iff_of_false (by decide) ?_
          rintro ⟨a, ha, b, hb, hna, -, -⟩
          exact hnone a ha hna

/-- Witness for C6: on an all-zero 2×2 density grid with threshold 1 the
mask is empty and the classifier returns 0 (rural) at the origin cell. -/
theorem C6_pattern_classification_characterization_witness :
    monocentric_polycentric_pattern (H := 2) (W := 2) (fun _ => 0) 1 5
      ((0 : Fin 2), (0 : Fin 2)) = 0 :=
  (C6_pattern_classification_characterization (H := 2) (W := 2)
    (fun _ => 0) 1 5 ((0 : Fin 2), (0 : Fin 2))).2.1 (by decide)

/-- Witness for C10: the concrete single-epoch request succeeds and its
time axis is exactly `["2020-01-01"]`. -/
theorem C10_single_epoch_time_axis_witness :
    (download cFetch [cTile] (.str "GHS-POP") (.int 2020) none none
        (some cRegion)).result = .ok cDs1 ∧
    cDs1.time = [timeCoordOf 2020] := by
  have h1 : (download cFetch [cTile] (.str "GHS-POP") (.int 2020) none none
      (some cRegion)).result = .ok cDs1 := by decide
  exact ⟨h1, C10_single_epoch_time_axis cFetch [cTile] (.str "GHS-POP")
    2020 none none (some cRegion) cDs1 h1⟩

end Ghslpy
